import Mathlib

/-!
Verification of the `PyUpdater` package-update engine (`src/Updater.py`).

The Python class shells out to an external package manager (pip) and touches
the file system; we embed each method as a pure Lean function parameterised by
the outcomes of those external effects:

* a collaborator runner `List String → Except PyErr Unit` stands for
  `subprocess.run(cmd, check=True)` — `Except.ok` is exit code 0,
  `Except.error .calledProcessError` is the `CalledProcessError` raised on a
  non-zero exit;
* file-system reads and writes are passed in as `Except`-valued outcomes;
* a method that can raise a Python exception outward returns
  `Except PyErr α`; a method that catches everything returns a plain value.

Python dynamic-call semantics matter here: `update_all` invokes
`self.update_package(pkg['name'])` with one argument while the method
declares three required positional parameters, and `update_from_file`
invokes `self.update_target(...)` which is not defined anywhere on the
class.  We model the arity check of a Python call explicitly
(`invoke_update_package`) and the missing attribute as an
`AttributeError`, exactly as CPython would raise them.

Collaborator invocations are recorded in an event trace so that claims of
the form "X is never invoked" are statements about the trace.
-/

/-- Python exceptions that can arise in `Updater.py`. -/
inductive PyErr where
  | calledProcessError
  | typeError
  | attributeError
  | valueError
  | ioError
deriving DecidableEq, Repr

/-- One call into the external package manager (pip), as issued by
`Updater.py`. -/
inductive Event where
  | listOutdated
  | freeze
  | install (cmd : List String)
  | installReq (file : String)
deriving DecidableEq, Repr

instance : BEq Event := ⟨fun a b => decide (a = b)⟩

/-- A record from `pip list --outdated --format=json`, the shape consumed by
`update_all` (`pkg['name']` etc.). -/
structure Pkg where
  name : String
  version : String
  latest_version : String
deriving DecidableEq, Repr

/-- Engine state: `Updater.py` lines 28-31 (`self.python_exe`,
`self.last_backup`). -/
structure UpdaterState where
  python_exe : String
  last_backup : Option String
deriving DecidableEq, Repr

/-- The "upgrade to newest" pip form, `Updater.py` line 68. -/
def upgradeForm (exe name : String) : List String :=
  [exe, "-m", "pip", "install", "--upgrade", name]

/-- The "install pinned version" pip form, `Updater.py` line 70
(f-string `{package_name}=={latest_version}`). -/
def pinForm (exe name v : String) : List String :=
  [exe, "-m", "pip", "install", name ++ "==" ++ v]

/-- Command selection of `update_package`, `Updater.py` lines 67-70: the
string `"latest"` selects the upgrade form, anything else the pinned form. -/
def buildCommand (exe name latest_version : String) : List String :=
  if latest_version == "latest" then upgradeForm exe name
  else pinForm exe name latest_version

/-- `PyUpdater.update_package`, `Updater.py` lines 54-77.  Issues exactly one
collaborator command; `check=True` makes a non-zero exit raise
`CalledProcessError`, which the `except` clause turns into `False`; any other
exception from the runner would propagate.  Returns the result together with
the list of commands issued. -/
def update_package (exe : String) (runner : List String → Except PyErr Unit)
    (package_name current_version latest_version : String) :
    Except PyErr Bool × List (List String) :=
  let _ := current_version
  let command := buildCommand exe package_name latest_version
  (match runner command with
   | Except.ok _ => Except.ok true
   | Except.error e =>
     match e with
     | PyErr.calledProcessError => Except.ok false
     | e => Except.error e,
   [command])

/-- A Python-level call of the bound method `update_package` with an argument
list.  CPython checks arity before entering the body: the method declares
three required positional parameters (line 54), so any other argument count
raises `TypeError` and the body (hence the pip call) never runs. -/
def invoke_update_package (exe : String)
    (runner : List String → Except PyErr Unit) (args : List String) :
    Except PyErr Bool × List Event :=
  match args with
  | [n, c, l] =>
    let (r, cmds) := update_package exe runner n c l
    (r, cmds.map Event.install)
  | _ => (Except.error PyErr.typeError, [])

/-- The `for pkg in outdated: self.update_package(pkg['name'])` loop of
`update_all`, `Updater.py` lines 202-204.  The call passes a single
argument; an exception raised by an iteration propagates and aborts the
loop (there is no try/except around it). -/
def update_all_loop (exe : String) (runner : List String → Except PyErr Unit) :
    List Pkg → Except PyErr Unit × List Event
  | [] => (Except.ok (), [])
  | p :: rest =>
    match invoke_update_package exe runner [p.name] with
    | (Except.error e, tr) => (Except.error e, tr)
    | (Except.ok _, tr) =>
      let (r, tr2) := update_all_loop exe runner rest
      (r, tr ++ tr2)

/-- `PyUpdater.update_all`, `Updater.py` lines 181-207.
`get_outdated_packages` (lines 33-52) issues the `pip list --outdated` query
and either returns the parsed list or re-raises its error, so we take its
outcome `inv` as a parameter; the query event is issued in every case.  An
empty inventory returns early (returning `None`, modelled as `Unit`).
Otherwise the loop runs; if it completes and `export_requirements` is set,
`generate_requirements` (lines 245-283) issues a `pip freeze` (it catches
its own errors, so `update_all` just continues).  `update_all` returns
`None` on every path. -/
def update_all (exe : String) (runner : List String → Except PyErr Unit)
    (inv : Except PyErr (List Pkg)) (export_requirements : Bool) :
    Except PyErr Unit × List Event :=
  match inv with
  | Except.error e => (Except.error e, [Event.listOutdated])
  | Except.ok outdated =>
    if outdated.isEmpty then (Except.ok (), [Event.listOutdated])
    else
      match update_all_loop exe runner outdated with
      | (Except.error e, tr) => (Except.error e, Event.listOutdated :: tr)
      | (Except.ok _, tr) =>
        if export_requirements then
          (Except.ok (), Event.listOutdated :: (tr ++ [Event.freeze]))
        else (Except.ok (), Event.listOutdated :: tr)

/-- `PyUpdater.rollback`, `Updater.py` lines 209-243: restore from a backup
file via `pip install -r`.  Present in the source but never called by
`update_all`. -/
def rollback (exe : String) (runner : List String → Except PyErr Unit)
    (backup_file : String) (file_exists : Bool) : Bool × List Event :=
  if !file_exists then (false, [])
  else
    match runner [exe, "-m", "pip", "install", "-r", backup_file] with
    | Except.ok _ => (true, [Event.installReq backup_file])
    | Except.error _ => (false, [Event.installReq backup_file])

/-! ### Target-file parsing (`update_from_file`, lines 92-116) -/

/-- Characters stripped by Python `str.strip()` (ASCII whitespace). -/
def pyIsSpace (c : Char) : Bool :=
  c = ' ' || c = '\t' || c = '\n' || c = '\r' || c = '\x0b' || c = '\x0c'

/-- Python `str.strip()` on the character list. -/
def stripList (l : List Char) : List Char :=
  ((l.dropWhile pyIsSpace).reverse.dropWhile pyIsSpace).reverse

/-- Python `str.strip()`. -/
def pyStrip (s : String) : String := ⟨stripList s.data⟩

/-- Characters before the first occurrence of `sep`: Python
`s.split(sep)[0]` for a non-empty separator. -/
def takeBeforeAux (sep : List Char) : List Char → List Char
  | [] => []
  | c :: cs => if sep.isPrefixOf (c :: cs) then [] else c :: takeBeforeAux sep cs

/-- Python `s.split(sep)[0]`. -/
def splitHead (sep s : String) : String := ⟨takeBeforeAux sep.data s.data⟩

/-- Python `s.startswith(pre)`. -/
def pyStartsWith (s pre : String) : Bool := pre.data.isPrefixOf s.data

/-- Line 106: `line.split("==")[0].split(">=")[0].strip()`. -/
def pkgNameOfLine (l : String) : String :=
  pyStrip (splitHead ">=" (splitHead "==" l))

/-- Body of the parsing loop of `update_from_file`, `Updater.py` lines
101-107: strip the line, skip it when empty or a `#` comment, otherwise
reduce a version pin to the bare name and append it to the `packages`
accumulator. -/
def parseStep (packages : List String) (line : String) : List String :=
  let l := pyStrip line
  if (l != "") && !(pyStartsWith l "#") then packages ++ [pkgNameOfLine l]
  else packages

/-- The parsing loop of `update_from_file`, `Updater.py` lines 98-107,
starting from the empty `packages` accumulator. -/
def parseTargetLines (lines : List String) : List String :=
  lines.foldl parseStep []

/-- Per-line behaviour as the spec states it (skip blank and `#` lines,
reduce `name==v` / `name>=v` to the bare name); used to characterise
`parseTargetLines` as an order-preserving `filterMap`. -/
def keepLineSpec (line : String) : Option String :=
  let l := pyStrip line
  if (l != "") && !(pyStartsWith l "#") then some (pkgNameOfLine l) else none

/-- The file-system facts `update_from_file` depends on: whether
`os.path.exists` holds, and the outcome of opening/reading the file
(`Except.error` standing for the `IOError` of lines 108-110). -/
structure FileState where
  pathExists : Bool
  readResult : Except Unit (List String)

/-- The `{"success": 0, "failed": 0}` dictionary returned by
`update_from_file` on its degenerate paths (lines 94, 110, 114). -/
structure Summary where
  success : Nat
  failed : Nat
deriving DecidableEq, Repr

/-- `PyUpdater.update_from_file`, `Updater.py` lines 79-116.  Missing file,
`IOError` while reading, and no-valid-names all return
`{"success": 0, "failed": 0}`.  Otherwise line 116 evaluates
`self.update_target(packages)`: no method `update_target` exists anywhere on
`PyUpdater`, so CPython raises `AttributeError` at the attribute lookup. -/
def update_from_file (fs : FileState) : Except PyErr Summary :=
  if !fs.pathExists then Except.ok ⟨0, 0⟩
  else
    match fs.readResult with
    | Except.error _ => Except.ok ⟨0, 0⟩
    | Except.ok ls =>
      let packages := parseTargetLines ls
      if packages.isEmpty then Except.ok ⟨0, 0⟩
      else Except.error PyErr.attributeError

/-- Decides whether `update_from_file` reaches line 116: the file exists, is
readable, and yields at least one valid package name. -/
def hasValidTarget (fs : FileState) : Bool :=
  fs.pathExists &&
    (match fs.readResult with
     | Except.ok ls => !(parseTargetLines ls).isEmpty
     | Except.error _ => false)

/-! ### Backup creation (`create_backup`, lines 118-145) -/

/-- Line 128-130: default backup filename derived from the timestamp when no
filename argument is given. -/
def backupFilename (filenameArg : Option String) (ts : String) : String :=
  match filenameArg with
  | none => "backup_env_" ++ ts ++ ".txt"
  | some f => f

/-- `PyUpdater.create_backup`, `Updater.py` lines 118-145.  `freeze` is the
outcome of `pip freeze` (line 134-137), `write` the outcome of writing its
stdout to the file (line 138-139).  The `except Exception` clause catches
every failure and returns `None`; `self.last_backup` is assigned (line 140)
only after both the freeze and the write succeeded.  Returns the value
returned to the caller together with the updated state. -/
def create_backup (st : UpdaterState) (filenameArg : Option String)
    (ts : String) (freeze : Except Unit String)
    (write : String → Except Unit Unit) : Option String × UpdaterState :=
  let filename := backupFilename filenameArg ts
  match freeze with
  | Except.error _ => (none, st)
  | Except.ok out =>
    match write out with
    | Except.error _ => (none, st)
    | Except.ok _ =>
      (some filename, { st with last_backup := some filename })

/-! ### Theorems -/

/-- Accumulator generalisation: the parsing loop is an order-preserving
`filterMap` of the per-line function. -/
theorem foldl_parseStep (lines : List String) :
    ∀ acc : List String,
      lines.foldl parseStep acc = acc ++ lines.filterMap keepLineSpec := by
  induction lines with
  | nil => intro acc; simp
  | cons x xs ih =>
    intro acc
    rw [List.foldl_cons, List.filterMap_cons]
    by_cases h : ((pyStrip x != "") && !(pyStartsWith (pyStrip x) "#")) = true
    · simp [parseStep, keepLineSpec, h, ih]
    · simp [parseStep, keepLineSpec, h, ih]

/-- Claim C1: the spec requires that with two inventory records where the
first update succeeds and the second fails, and automatic recovery enabled,
the engine produces `{total:2, succeeded:1, failed:1, rolledBack:true}` and
calls restore exactly once with this cycle's snapshot.  The code has no
auto-recovery parameter at all, and evaluating `update_all` on exactly that
inventory (with a collaborator that would fail the second install) raises
`TypeError` at the first `update_package` call — one argument passed, three
required — so no failed count is computed and restore (`pip install -r`,
the `Event.installReq` event) is never invoked: the trace holds only the
inventory query. -/
theorem update_all_rollback_scenario_crashes :
    update_all "python"
      (fun cmd =>
        if cmd == pinForm "python" "setuptools" "68.0" then
          Except.error PyErr.calledProcessError
        else Except.ok ())
      (Except.ok [⟨"requests", "2.20.0", "2.28.0"⟩,
                  ⟨"setuptools", "67.0", "68.0"⟩]) true
      = (Except.error PyErr.typeError, [Event.listOutdated]) := rfl

/-- Claim C2: the spec's fail-fast invariant says every cycle that reaches
the update loop first successfully created a snapshot, and a failed snapshot
aborts the cycle.  In the code `update_all` never calls `create_backup`: no
invocation of `update_all` — whatever the inventory outcome, the
collaborator behaviour, or the export flag — ever issues the snapshot
(`pip freeze` / `Event.freeze`) call, so in particular a cycle that reaches
the update loop (non-empty inventory) does so with no snapshot. -/
theorem update_all_never_creates_snapshot (exe : String)
    (runner : List String → Except PyErr Unit)
    (inv : Except PyErr (List Pkg)) (export_requirements : Bool) :
    ((update_all exe runner inv export_requirements).2.contains Event.freeze)
      = false := by
  cases inv with
  | error e => rfl
  | ok outdated =>
    cases outdated with
    | nil => rfl
    | cons p ps => rfl

/-- Claim C3: the spec requires the update loop to call the installer once
per record in inventory order with no short-circuiting.  In the code the
loop body `self.update_package(pkg['name'])` passes one argument to a
method with three required positional parameters, so the very first record
raises `TypeError`: for every non-empty inventory the cycle aborts with
`TypeError`, no `pip install` command is ever issued (no `Event.install` in
the trace), and the remaining records are never attempted. -/
theorem update_all_loop_first_record_type_error (exe : String)
    (runner : List String → Except PyErr Unit) (p : Pkg) (ps : List Pkg)
    (export_requirements : Bool) :
    update_all exe runner (Except.ok (p :: ps)) export_requirements
      = (Except.error PyErr.typeError, [Event.listOutdated]) := rfl

/-- Claim C4: `update_from_file` reaches `self.update_target(packages)`
(line 116) exactly when the file exists, is readable, and yields at least
one valid package name; `update_target` is not defined on `PyUpdater`, so
that path raises `AttributeError`, while every degenerate path (missing
file, `IOError`, no valid names) returns the `{"success": 0, "failed": 0}`
summary. -/
theorem update_from_file_attribute_error (fs : FileState) :
    update_from_file fs =
      if hasValidTarget fs then Except.error PyErr.attributeError
      else Except.ok ⟨0, 0⟩ := by
  rcases fs with ⟨pe, rr⟩
  cases pe with
  | false => rfl
  | true =>
    cases rr with
    | error e => rfl
    | ok ls =>
      cases h : (parseTargetLines ls).isEmpty with
      | false => simp [update_from_file, hasValidTarget, h]
      | true => simp [update_from_file, hasValidTarget, h]

/-- Claim C5 (counterexample): a cycle of `update_all` with an empty
inventory runs to completion and returns Python's `None` (here `Unit`) —
no `OperationSummary` value, and no count-level summary of any kind, is
produced, contradicting "a count-level summary is always produced". -/
theorem update_all_completes_without_summary :
    update_all "python" (fun _ => Except.ok ()) (Except.ok []) true
      = (Except.ok (), [Event.listOutdated]) := rfl

/-- Claim C5 (amended): the only summaries the code produces are the
degenerate `{"success": 0, "failed": 0}` dictionaries of
`update_from_file`, which trivially satisfy `success + failed = 0`, the
number of updates attempted on those paths; `update_all` itself completes
without producing any summary (it returns `None`). -/
theorem update_summaries_amended :
    (∀ fs s, update_from_file fs = Except.ok s → s.success + s.failed = 0) ∧
    (∀ (exe : String) (runner : List String → Except PyErr Unit)
       (export_requirements : Bool),
       (update_all exe runner (Except.ok []) export_requirements).1
         = Except.ok ()) := by
  constructor
  · intro fs s h
    rcases fs with ⟨pe, rr⟩
    cases pe with
    | false =>
      simp only [update_from_file, Bool.not_false, if_true] at h
      cases h
      rfl
    | true =>
      cases rr with
      | error e =>
        simp only [update_from_file] at h
        cases h
        rfl
      | ok ls =>
        simp only [update_from_file] at h
        cases he : (parseTargetLines ls).isEmpty with
        | true => rw [he] at h; cases h; rfl
        | false => rw [he] at h; cases h
  · intro exe runner export_requirements
    rfl

/-- Witness for `update_summaries_amended` at the missing-file input. -/
theorem update_summaries_amended_witness :
    (⟨0, 0⟩ : Summary).success + (⟨0, 0⟩ : Summary).failed = 0 :=
  update_summaries_amended.1 ⟨false, Except.error ()⟩ ⟨0, 0⟩ rfl

/-- Claim C6: `update_package` never propagates a collaborator invocation
failure: when the runner either succeeds or raises `CalledProcessError`
(what `subprocess.run(..., check=True)` does on a non-zero exit), the call
always returns a Bool value — and whenever the issued command fails, that
value is `False`, the failure result. -/
theorem update_package_never_raises (exe : String)
    (runner : List String → Except PyErr Unit) (n c l : String)
    (h : ∀ cmd, runner cmd = Except.ok () ∨
      runner cmd = Except.error PyErr.calledProcessError) :
    (∃ b, (update_package exe runner n c l).1 = Except.ok b) ∧
    (runner (buildCommand exe n l) = Except.error PyErr.calledProcessError →
      (update_package exe runner n c l).1 = Except.ok false) := by
  constructor
  · rcases h (buildCommand exe n l) with h1 | h1
    · exact ⟨true, by simp [update_package, h1]⟩
    · exact ⟨false, by simp [update_package, h1]⟩
  · intro h2
    simp [update_package, h2]

/-- Witness for `update_package_never_raises` with an always-failing
collaborator. -/
theorem update_package_never_raises_witness :
    ∃ b, (update_package "python"
        (fun _ => Except.error PyErr.calledProcessError)
        "requests" "2.20.0" "2.28.0").1 = Except.ok b :=
  (update_package_never_raises "python"
    (fun _ => Except.error PyErr.calledProcessError)
    "requests" "2.20.0" "2.28.0" (fun _ => Or.inr rfl)).1

/-- Claim C7 (counterexample): a missing target file and a readable target
file with no valid names produce the very same `{"success": 0, "failed": 0}`
return value — there is no distinct `ReadError` outcome, so the immediate
caller cannot distinguish the two. -/
theorem missing_file_indistinguishable_from_empty :
    update_from_file ⟨false, Except.error ()⟩ = Except.ok ⟨0, 0⟩ ∧
    update_from_file ⟨true, Except.ok ["# comment"]⟩ = Except.ok ⟨0, 0⟩ ∧
    update_from_file ⟨false, Except.error ()⟩
      = update_from_file ⟨true, Except.ok ["# comment"]⟩ :=
  ⟨rfl, rfl, rfl⟩

/-- Claim C7 (amended): when the target file is missing or unreadable,
`update_from_file` returns exactly the same degenerate
`{"success": 0, "failed": 0}` summary as when a readable file yields no
valid names; the outcomes differ only in logging, not in the value the
caller receives. -/
theorem degenerate_read_paths_return_zero_summary (fs : FileState)
    (h : hasValidTarget fs = false) :
    update_from_file fs = Except.ok ⟨0, 0⟩ := by
  rcases fs with ⟨pe, rr⟩
  cases pe with
  | false => rfl
  | true =>
    cases rr with
    | error e => rfl
    | ok ls =>
      simp only [hasValidTarget, Bool.true_and] at h
      have h2 : parseTargetLines ls = [] := by simpa using h
      simp [update_from_file, h2]

/-- Witness for `degenerate_read_paths_return_zero_summary` at a readable
comment-only file. -/
theorem degenerate_read_paths_return_zero_summary_witness :
    update_from_file ⟨true, Except.ok ["# pinned set", "   "]⟩
      = Except.ok ⟨0, 0⟩ :=
  degenerate_read_paths_return_zero_summary
    ⟨true, Except.ok ["# pinned set", "   "]⟩ rfl

/-- Claim C8: the parsing loop is an order-preserving `filterMap` that skips
stripped-empty lines and `#` comments and reduces `name==v` / `name>=v`
pins to the bare name, and on the spec's example
`["# comment", "", "requests==2.20.0", "flask>=2.0"]` it yields
`["requests", "flask"]`. -/
theorem readTargetList_parsing :
    parseTargetLines ["# comment", "", "requests==2.20.0", "flask>=2.0"]
      = ["requests", "flask"] ∧
    ∀ lines : List String,
      parseTargetLines lines = lines.filterMap keepLineSpec := by
  refine ⟨by decide, ?_⟩
  intro lines
  unfold parseTargetLines
  rw [foldl_parseStep]
  simp

/-- Claim C9: a failed `create_backup` call returns `None` and leaves the
whole engine state — in particular `last_backup` — unchanged, while a
successful call returns the backup filename and points `last_backup` at
exactly that file; hence `last_backup` always names the most recently
successfully created backup. -/
theorem create_backup_last_snapshot (st : UpdaterState)
    (filenameArg : Option String) (ts : String) (freeze : Except Unit String)
    (write : String → Except Unit Unit) :
    ((create_backup st filenameArg ts freeze write).1 = none →
      (create_backup st filenameArg ts freeze write).2 = st) ∧
    (∀ f, (create_backup st filenameArg ts freeze write).1 = some f →
      f = backupFilename filenameArg ts ∧
      (create_backup st filenameArg ts freeze write).2.last_backup
        = some f) := by
  cases hfz : freeze with
  | error e =>
    constructor
    · intro _
      simp [create_backup, hfz]
    · intro f hf
      simp [create_backup, hfz] at hf
  | ok out =>
    cases hw : write out with
    | error e =>
      constructor
      · intro _
        simp [create_backup, hfz, hw]
      · intro f hf
        simp [create_backup, hfz, hw] at hf
    | ok u =>
      constructor
      · intro h
        simp [create_backup, hfz, hw] at h
      · intro f hf
        simp [create_backup, hfz, hw] at hf
        subst hf
        exact ⟨rfl, by simp [create_backup, hfz, hw]⟩

/-- Witness for `create_backup_last_snapshot`: a failed `pip freeze` leaves
a previously recorded backup in place. -/
theorem create_backup_last_snapshot_witness :
    (create_backup ⟨"python", some "old.txt"⟩ none "20240101_000000"
        (Except.error ()) (fun _ => Except.ok ())).2
      = ⟨"python", some "old.txt"⟩ :=
  (create_backup_last_snapshot ⟨"python", some "old.txt"⟩ none
    "20240101_000000" (Except.error ()) (fun _ => Except.ok ())).1 rfl

/-- Claim C10: each `update_package` call issues exactly one collaborator
command — the upgrade form when the requested version is the string
`"latest"` (the code's encoding of the Latest mode), and the pinned
`name==v` form otherwise — and the two forms are never the same command. -/
theorem update_package_mode_dispatch (exe : String)
    (runner : List String → Except PyErr Unit) (n c v : String) :
    (update_package exe runner n c v).2
      = [if v == "latest" then upgradeForm exe n else pinForm exe n v] ∧
    upgradeForm exe n ≠ pinForm exe n v := by
  constructor
  · simp [update_package, buildCommand]
  · intro h
    have hlen := congrArg List.length h
    simp [upgradeForm, pinForm] at hlen

/-- Witness for `update_package_mode_dispatch` at the Latest mode. -/
theorem update_package_mode_dispatch_witness :
    (update_package "python" (fun _ => Except.ok ())
        "requests" "2.20.0" "latest").2
      = [if "latest" == "latest" then upgradeForm "python" "requests"
         else pinForm "python" "requests" "latest"] ∧
    upgradeForm "python" "requests" ≠ pinForm "python" "requests" "latest" :=
  update_package_mode_dispatch "python" (fun _ => Except.ok ())
    "requests" "2.20.0" "latest"
